import Mathlib

/-!
Verification of the provider-aws controllers: a shallow embedding of the
SNS subscription client helpers, the API Gateway v2 APIMapping conversion
functions, the Authorizer controller hooks, and the EKS NodeGroup
controller operations, with theorems settling the specification claims.

Go `map[string]string` values are embedded as association lists whose
read with default (`mapGet`) mirrors Go's zero-value map indexing.
Go `*string` / `*bool` pointers are embedded as `Option`.
-/

namespace ProviderAWS

/-- Association-list embedding of Go `map[string]string`. -/
abbrev AttrMap := List (String × String)

/-- Go map indexing `m[k]`: the zero value `""` when the key is absent. -/
def mapGet (m : AttrMap) (k : String) : String :=
  (List.lookup k m).getD ""

/-- `aws.StringValue`: dereference a `*string`, `""` for nil. -/
def StringValue (s : Option String) : String := s.getD ""

/-- Embedding of Go `error` values relevant here: an `awserr.Error`
carrying a code and a message, a plain `errors.New` error, or an
`errors.Wrap`-wrapped error (which does not satisfy the `awserr.Error`
type assertion). A nil `error` is `Option.none` at use sites. -/
inductive GoError where
  | awsErr (code message : String)
  | basic (message : String)
  | wrap (message : String) (inner : GoError)
  deriving DecidableEq, Repr

namespace SNS

/-- AWS SNS subscription attribute name constant. -/
def SubscriptionDeliveryPolicy : String := "DeliveryPolicy"

/-- AWS SNS subscription attribute name constant. -/
def SubscriptionFilterPolicy : String := "FilterPolicy"

/-- AWS SNS subscription attribute name constant. -/
def SubscriptionRawMessageDelivery : String := "RawMessageDelivery"

/-- AWS SNS subscription attribute name constant. -/
def SubscriptionRedrivePolicy : String := "RedrivePolicy"

/-- AWS SNS subscription attribute name constant. -/
def SubscriptionOwner : String := "Owner"

/-- AWS SNS subscription attribute name constant. -/
def SubscriptionPendingConfirmation : String := "PendingConfirmation"

/-- AWS SNS subscription attribute name constant. -/
def SubscriptionConfirmationWasAuthenticated : String := "ConfirmationWasAuthenticated"

/-- `sns.ErrCodeNotFoundException` from the AWS SDK for Go v2. -/
def ErrCodeNotFoundException : String := "NotFound"

/-- `v1alpha1.SNSSubscriptionParameters`: the spec fields used by the
subscription client helpers. Optional policy fields are `*string`. -/
structure SNSSubscriptionParameters where
  TopicARN : String
  Protocol : String
  Endpoint : String
  DeliveryPolicy : Option String
  FilterPolicy : Option String
  RawMessageDelivery : Option String
  RedrivePolicy : Option String
  deriving DecidableEq, Repr

/-- `getSubAttributes`: the four-entry map of desired subscription
attribute values, nil fields read as `""` via `aws.StringValue`. -/
def getSubAttributes (p : SNSSubscriptionParameters) : AttrMap :=
  [ (SubscriptionDeliveryPolicy, StringValue p.DeliveryPolicy),
    (SubscriptionFilterPolicy, StringValue p.FilterPolicy),
    (SubscriptionRawMessageDelivery, StringValue p.RawMessageDelivery),
    (SubscriptionRedrivePolicy, StringValue p.RedrivePolicy) ]

/-- `GetChangedSubAttributes`: keep the desired attribute entries whose
value differs from the observed map at that key. -/
def GetChangedSubAttributes (p : SNSSubscriptionParameters) (attrs : AttrMap) : AttrMap :=
  (getSubAttributes p).filter (fun kv => kv.2 != mapGet attrs kv.1)

/-- `IsSNSSubscriptionAttributesUpToDate`: all four desired attribute
values coincide with the observed map. -/
def IsSNSSubscriptionAttributesUpToDate (p : SNSSubscriptionParameters) (subAttributes : AttrMap) : Bool :=
  StringValue p.DeliveryPolicy == mapGet subAttributes SubscriptionDeliveryPolicy &&
  StringValue p.FilterPolicy == mapGet subAttributes SubscriptionFilterPolicy &&
  StringValue p.RawMessageDelivery == mapGet subAttributes SubscriptionRawMessageDelivery &&
  StringValue p.RedrivePolicy == mapGet subAttributes SubscriptionRedrivePolicy

/-- `IsSubscriptionNotFound`: the `awserr.Error` type assertion succeeds
and the code is `sns.ErrCodeNotFoundException`. -/
def IsSubscriptionNotFound : Option GoError → Bool
  | some (GoError.awsErr code _) => code == ErrCodeNotFoundException
  | _ => false

/-- Modelled from the spec: `awsclients.LateInitializeStringPtr` lives in
the shared clients package, which is not among the sampled files; per the
spec's description of late initialization it keeps the spec value when
the user set it and otherwise adopts the observed value. -/
def LateInitializeStringPtr (inp fromObserved : Option String) : Option String :=
  match inp with
  | some v => some v
  | none => fromObserved

/-- `awsclients.String`: address of a string value, never nil. -/
def awsString (s : String) : Option String := some s

/-- `LateInitializeSubscription`: fill the four nil policy fields of the
parameters from the observed subscription attributes. -/
def LateInitializeSubscription (inp : SNSSubscriptionParameters) (subAttributes : AttrMap) :
    SNSSubscriptionParameters :=
  { inp with
    DeliveryPolicy := LateInitializeStringPtr inp.DeliveryPolicy
      (awsString (mapGet subAttributes SubscriptionDeliveryPolicy)),
    FilterPolicy := LateInitializeStringPtr inp.FilterPolicy
      (awsString (mapGet subAttributes SubscriptionFilterPolicy)),
    RawMessageDelivery := LateInitializeStringPtr inp.RawMessageDelivery
      (awsString (mapGet subAttributes SubscriptionRawMessageDelivery)),
    RedrivePolicy := LateInitializeStringPtr inp.RedrivePolicy
      (awsString (mapGet subAttributes SubscriptionRedrivePolicy)) }

/-- `strconv.ParseBool`: accepts exactly the twelve Go boolean literals,
anything else is a parse error (`Option.none`). -/
def parseBool (s : String) : Option Bool :=
  if s = "1" ∨ s = "t" ∨ s = "T" ∨ s = "TRUE" ∨ s = "true" ∨ s = "True" then some true
  else if s = "0" ∨ s = "f" ∨ s = "F" ∨ s = "FALSE" ∨ s = "false" ∨ s = "False" then some false
  else none

/-- Modelled from the spec: the `v1alpha1.ConfirmationStatus` string
constants live in the apis package, which is not among the sampled
files; only their distinctness from the zero value `""` matters here. -/
def ConfirmationPending : String := "ConfirmationPending"

/-- Modelled from the spec: see `ConfirmationPending`. -/
def ConfirmationSuccessful : String := "ConfirmationSuccessful"

/-- `v1alpha1.SNSSubscriptionObservation`: observed fields, all Go
pointers. `Status` is a `*ConfirmationStatus` (a string alias). -/
structure SNSSubscriptionObservation where
  Owner : Option String
  Status : Option String
  ConfirmationWasAuthenticated : Option Bool
  deriving DecidableEq, Repr

/-- `GenerateSubscriptionObservation`: build the observation from the
cloud attribute map. `Status` always points at the local `status`
variable, which keeps its zero value when `PendingConfirmation` does not
parse as a boolean. -/
def GenerateSubscriptionObservation (attr : AttrMap) : SNSSubscriptionObservation :=
  let status : String :=
    match parseBool (mapGet attr SubscriptionPendingConfirmation) with
    | some true => ConfirmationPending
    | some false => ConfirmationSuccessful
    | none => ""
  { Owner := awsString (mapGet attr SubscriptionOwner),
    Status := some status,
    ConfirmationWasAuthenticated := parseBool (mapGet attr SubscriptionConfirmationWasAuthenticated) }

end SNS

namespace APIMapping

/-- `IsNotFound`: the `awserr.Error` type assertion succeeds and the code
is the literal `"NotFoundException"`. -/
def IsNotFound : Option GoError → Bool
  | some (GoError.awsErr code _) => code == "NotFoundException"
  | _ => false

/-- One element of `svcsdk.GetApiMappingsOutput.Items`. -/
structure ApiMappingItem where
  ApiId : Option String
  ApiMappingId : Option String
  ApiMappingKey : Option String
  Stage : Option String
  deriving DecidableEq, Repr

/-- `svcsdk.GetApiMappingsOutput`: the listed API mappings. -/
structure GetApiMappingsOutput where
  Items : List ApiMappingItem
  deriving DecidableEq, Repr

/-- `svcapitypes.APIMapping`: the custom resource fields written by
`GenerateAPIMapping` (`Status.AtProvider` and `Spec.ForProvider`). -/
structure APIMappingCR where
  statusAPIID : Option String
  statusAPIMappingID : Option String
  statusStage : Option String
  specAPIMappingKey : Option String
  deriving DecidableEq, Repr

/-- The zero-value `svcapitypes.APIMapping`. -/
def emptyAPIMapping : APIMappingCR := ⟨none, none, none, none⟩

/-- `GenerateAPIMapping`: copy the non-nil fields of the first listed
item into a fresh custom resource; the loop breaks after the first
iteration, and an empty list yields the zero-value resource. -/
def GenerateAPIMapping (resp : GetApiMappingsOutput) : APIMappingCR :=
  match resp.Items with
  | [] => emptyAPIMapping
  | elem :: _ =>
    let cr0 := emptyAPIMapping
    let cr1 := if elem.ApiId.isSome then { cr0 with statusAPIID := elem.ApiId } else cr0
    let cr2 := if elem.ApiMappingId.isSome then { cr1 with statusAPIMappingID := elem.ApiMappingId } else cr1
    let cr3 := if elem.ApiMappingKey.isSome then { cr2 with specAPIMappingKey := elem.ApiMappingKey } else cr2
    if elem.Stage.isSome then { cr3 with statusStage := elem.Stage } else cr3

end APIMapping

/-- A crossplane runtime condition: type, status and reason. -/
structure Condition where
  ctype : String
  status : String
  reason : String
  deriving DecidableEq, Repr

/-- `v1alpha1.Available()`: Ready condition, status True. -/
def conditionAvailable : Condition := ⟨"Ready", "True", "Available"⟩

/-- `v1alpha1.Creating()`: Ready condition, status False. -/
def conditionCreating : Condition := ⟨"Ready", "False", "Creating"⟩

/-- `v1alpha1.Deleting()`: Ready condition, status False. -/
def conditionDeleting : Condition := ⟨"Ready", "False", "Deleting"⟩

/-- `v1alpha1.Unavailable()`: Ready condition, status False. -/
def conditionUnavailable : Condition := ⟨"Ready", "False", "Unavailable"⟩

/-- `ConditionedStatus.SetConditions` for a single condition: replace the
existing condition of the same type, or append when absent. -/
def setCondition (cs : List Condition) (c : Condition) : List Condition :=
  if cs.any (fun x => x.ctype == c.ctype)
  then cs.map (fun x => if x.ctype == c.ctype then c else x)
  else cs ++ [c]

/-- `managed.ExternalObservation`: the reconciler-facing observation
flags. -/
structure ExternalObservation where
  ResourceExists : Bool
  ResourceUpToDate : Bool
  deriving DecidableEq, Repr

/-- The zero-value `managed.ExternalObservation{}`. -/
def emptyObservation : ExternalObservation := ⟨false, false⟩

namespace Authorizer

/-- `svcapitypes.Authorizer`: the external-name annotation read by
`meta.GetExternalName`, the spec and status fields the hooks touch, and
the conditioned status. -/
structure AuthorizerCR where
  externalName : String
  specAPIID : Option String
  statusAuthorizerID : Option String
  conditions : List Condition
  deriving DecidableEq, Repr

/-- One element of `svcsdk.GetAuthorizersOutput.Items`. -/
structure AuthorizerItem where
  Name : Option String
  AuthorizerId : Option String
  deriving DecidableEq, Repr

/-- `svcsdk.GetAuthorizersOutput`. -/
structure GetAuthorizersOutput where
  Items : List AuthorizerItem
  NextToken : Option String
  deriving DecidableEq, Repr

/-- `postObserve`: on error, an empty observation and the error with the
resource untouched; otherwise set the Available condition and pass the
observation through. -/
def postObserve (cr : AuthorizerCR) (obs : ExternalObservation) (err : Option GoError) :
    AuthorizerCR × ExternalObservation × Option GoError :=
  match err with
  | some e => (cr, emptyObservation, some e)
  | none => ({ cr with conditions := setCondition cr.conditions conditionAvailable }, obs, none)

/-- `filterList`: append to a fresh output every listed authorizer whose
name (nil read as `""`) equals the custom resource's external name. -/
def filterList (cr : AuthorizerCR) (list : GetAuthorizersOutput) : GetAuthorizersOutput :=
  { Items := list.Items.foldl
      (fun acc a => if cr.externalName == StringValue a.Name then acc ++ [a] else acc) [],
    NextToken := none }

end Authorizer

namespace NodeGroup

/-- `v1alpha1.NodeGroupStatusCreating` (modelled value). -/
def NodeGroupStatusCreating : String := "CREATING"

/-- `v1alpha1.NodeGroupStatusActive` (modelled value). -/
def NodeGroupStatusActive : String := "ACTIVE"

/-- `v1alpha1.NodeGroupStatusDeleting` (modelled value). -/
def NodeGroupStatusDeleting : String := "DELETING"

/-- `awseks.ErrCodeResourceNotFoundException`. -/
def ErrCodeResourceNotFoundException : String := "ResourceNotFoundException"

/-- The static error string wrapped by a failing DescribeNodegroup call. -/
def errDescribeFailed : String := "failed to describe node group"

/-- The static error string wrapped by a failing CreateNodegroup call
(modelled value). -/
def errCreateFailed : String := "failed to create node group"

/-- The static error string wrapped by a failing DeleteNodegroup call
(modelled value). -/
def errDeleteFailed : String := "failed to delete node group"

/-- `v1alpha1.NodeGroup`: the spec and observed-status fields the
controller operations touch, plus the conditioned status. -/
structure NodeGroupCR where
  specVersion : Option String
  specTags : List (String × String)
  statusAtProvider : String
  conditions : List Condition
  deriving DecidableEq, Repr

/-- The relevant fields of `awseks.DescribeNodegroupOutput.Nodegroup`. -/
structure DescribeNodegroupOutput where
  ngStatus : String
  ngVersion : Option String
  deriving DecidableEq, Repr

/-- Modelled from the spec: the node group controller recognizes the EKS
resource-not-found code as "already absent"; its test fixtures signal it
both as an `awserr.Error` code and as a plain error message. -/
def isResourceNotFound : GoError → Bool
  | GoError.awsErr code _ => code == ErrCodeResourceNotFoundException
  | GoError.basic message => message == ErrCodeResourceNotFoundException
  | GoError.wrap _ _ => false

/-- Modelled from the spec: the condition the controller sets for an
observed node group status. -/
def nodeGroupCondition (s : String) : Condition :=
  if s == NodeGroupStatusActive then conditionAvailable
  else if s == NodeGroupStatusCreating then conditionCreating
  else if s == NodeGroupStatusDeleting then conditionDeleting
  else conditionUnavailable

/-- Modelled from the spec: the node group controller's `Observe` is not
among the sampled files. Per the spec's error-handling design and the
controller tests, a failing DescribeNodegroup call with the
resource-not-found code yields a not-found observation and no error with
the resource untouched; any other failure is returned wrapped with
`errDescribeFailed`, also leaving the resource untouched; on success the
observed status is recorded, the version is late-initialized and the
matching condition is set. -/
def Observe (cr : NodeGroupCR) (describe : Except GoError DescribeNodegroupOutput) :
    NodeGroupCR × ExternalObservation × Option GoError :=
  match describe with
  | Except.error e =>
      if isResourceNotFound e then (cr, emptyObservation, none)
      else (cr, emptyObservation, some (GoError.wrap errDescribeFailed e))
  | Except.ok out =>
      let cr1 := { cr with
        specVersion := SNS.LateInitializeStringPtr cr.specVersion out.ngVersion,
        statusAtProvider := out.ngStatus }
      ({ cr1 with conditions := setCondition cr1.conditions (nodeGroupCondition out.ngStatus) },
       ⟨true, true⟩, none)

/-- Modelled from the spec: the node group controller's `Delete` is not
among the sampled files. Per the spec and the controller tests, it sets
the Deleting condition, skips the call when the observed status is
already Deleting, treats the resource-not-found code as success, and
wraps any other failure with `errDeleteFailed`. -/
def Delete (cr : NodeGroupCR) (deleteCall : Option GoError) : NodeGroupCR × Option GoError :=
  let cr1 := { cr with conditions := setCondition cr.conditions conditionDeleting }
  if cr.statusAtProvider == NodeGroupStatusDeleting then (cr1, none)
  else
    match deleteCall with
    | none => (cr1, none)
    | some e =>
        if isResourceNotFound e then (cr1, none)
        else (cr1, some (GoError.wrap errDeleteFailed e))

/-- Modelled from the spec: the node group controller's `Create` is not
among the sampled files. Per the spec and the controller tests, it sets
the Creating condition, skips the call when the observed status is
already Creating, and wraps any failure with `errCreateFailed`. -/
def Create (cr : NodeGroupCR) (createCall : Option GoError) : NodeGroupCR × Option GoError :=
  let cr1 := { cr with conditions := setCondition cr.conditions conditionCreating }
  if cr.statusAtProvider == NodeGroupStatusCreating then (cr1, none)
  else
    match createCall with
    | none => (cr1, none)
    | some e => (cr1, some (GoError.wrap errCreateFailed e))

end NodeGroup

end ProviderAWS

namespace ProviderAWS

namespace SNS

/-- C1: `IsSNSSubscriptionAttributesUpToDate p attrs` is true exactly when
`GetChangedSubAttributes p attrs` is the empty map, so the up-to-date
check and the changed-attribute diff agree on whether an Update is
needed. -/
theorem upToDate_iff_changed_empty (p : SNSSubscriptionParameters) (attrs : AttrMap) :
    IsSNSSubscriptionAttributesUpToDate p attrs = true ↔
    GetChangedSubAttributes p attrs = [] := by
  cases h1 : (StringValue p.DeliveryPolicy == mapGet attrs SubscriptionDeliveryPolicy) <;>
  cases h2 : (StringValue p.FilterPolicy == mapGet attrs SubscriptionFilterPolicy) <;>
  cases h3 : (StringValue p.RawMessageDelivery == mapGet attrs SubscriptionRawMessageDelivery) <;>
  cases h4 : (StringValue p.RedrivePolicy == mapGet attrs SubscriptionRedrivePolicy) <;>
  simp [IsSNSSubscriptionAttributesUpToDate, GetChangedSubAttributes, getSubAttributes,
    List.filter, bne, h1, h2, h3, h4]

/-- C1 witness: evaluated on a concrete parameter set and attribute map. -/
theorem upToDate_iff_changed_empty_witness :
    IsSNSSubscriptionAttributesUpToDate
      ⟨"arn:topic", "sqs", "ep", some "dp", none, none, none⟩
      [("DeliveryPolicy", "dp")] = true ↔
    GetChangedSubAttributes
      ⟨"arn:topic", "sqs", "ep", some "dp", none, none, none⟩
      [("DeliveryPolicy", "dp")] = [] :=
  upToDate_iff_changed_empty ⟨"arn:topic", "sqs", "ep", some "dp", none, none, none⟩
    [("DeliveryPolicy", "dp")]

/-- C3: `GetChangedSubAttributes` holds exactly the four subscription
attribute keys whose desired value (nil read as `""`) differs from the
observed map, each bound to the desired value, and no other key. -/
theorem changed_attrs_exact (p : SNSSubscriptionParameters) (attrs : AttrMap) :
    (List.lookup SubscriptionDeliveryPolicy (GetChangedSubAttributes p attrs) =
      (if StringValue p.DeliveryPolicy == mapGet attrs SubscriptionDeliveryPolicy then none
       else some (StringValue p.DeliveryPolicy))) ∧
    (List.lookup SubscriptionFilterPolicy (GetChangedSubAttributes p attrs) =
      (if StringValue p.FilterPolicy == mapGet attrs SubscriptionFilterPolicy then none
       else some (StringValue p.FilterPolicy))) ∧
    (List.lookup SubscriptionRawMessageDelivery (GetChangedSubAttributes p attrs) =
      (if StringValue p.RawMessageDelivery == mapGet attrs SubscriptionRawMessageDelivery then none
       else some (StringValue p.RawMessageDelivery))) ∧
    (List.lookup SubscriptionRedrivePolicy (GetChangedSubAttributes p attrs) =
      (if StringValue p.RedrivePolicy == mapGet attrs SubscriptionRedrivePolicy then none
       else some (StringValue p.RedrivePolicy))) ∧
    (∀ kv ∈ GetChangedSubAttributes p attrs,
      kv.1 = SubscriptionDeliveryPolicy ∨ kv.1 = SubscriptionFilterPolicy ∨
      kv.1 = SubscriptionRawMessageDelivery ∨ kv.1 = SubscriptionRedrivePolicy) := by
  refine ⟨?_, ?_, ?_, ?_, ?_⟩
  case _ =>
    cases h1 : (StringValue p.DeliveryPolicy == mapGet attrs "DeliveryPolicy") <;>
    cases h2 : (StringValue p.FilterPolicy == mapGet attrs "FilterPolicy") <;>
    cases h3 : (StringValue p.RawMessageDelivery == mapGet attrs "RawMessageDelivery") <;>
    cases h4 : (StringValue p.RedrivePolicy == mapGet attrs "RedrivePolicy") <;>
    simp [GetChangedSubAttributes, getSubAttributes, List.filter, bne, List.lookup,
      SubscriptionDeliveryPolicy, SubscriptionFilterPolicy, SubscriptionRawMessageDelivery,
      SubscriptionRedrivePolicy, h1, h2, h3, h4]
  case _ =>
    cases h1 : (StringValue p.DeliveryPolicy == mapGet attrs "DeliveryPolicy") <;>
    cases h2 : (StringValue p.FilterPolicy == mapGet attrs "FilterPolicy") <;>
    cases h3 : (StringValue p.RawMessageDelivery == mapGet attrs "RawMessageDelivery") <;>
    cases h4 : (StringValue p.RedrivePolicy == mapGet attrs "RedrivePolicy") <;>
    simp [GetChangedSubAttributes, getSubAttributes, List.filter, bne, List.lookup,
      SubscriptionDeliveryPolicy, SubscriptionFilterPolicy, SubscriptionRawMessageDelivery,
      SubscriptionRedrivePolicy, h1, h2, h3, h4]
  case _ =>
    cases h1 : (StringValue p.DeliveryPolicy == mapGet attrs "DeliveryPolicy") <;>
    cases h2 : (StringValue p.FilterPolicy == mapGet attrs "FilterPolicy") <;>
    cases h3 : (StringValue p.RawMessageDelivery == mapGet attrs "RawMessageDelivery") <;>
    cases h4 : (StringValue p.RedrivePolicy == mapGet attrs "RedrivePolicy") <;>
    simp [GetChangedSubAttributes, getSubAttributes, List.filter, bne, List.lookup,
      SubscriptionDeliveryPolicy, SubscriptionFilterPolicy, SubscriptionRawMessageDelivery,
      SubscriptionRedrivePolicy, h1, h2, h3, h4]
  case _ =>
    cases h1 : (StringValue p.DeliveryPolicy == mapGet attrs "DeliveryPolicy") <;>
    cases h2 : (StringValue p.FilterPolicy == mapGet attrs "FilterPolicy") <;>
    cases h3 : (StringValue p.RawMessageDelivery == mapGet attrs "RawMessageDelivery") <;>
    cases h4 : (StringValue p.RedrivePolicy == mapGet attrs "RedrivePolicy") <;>
    simp [GetChangedSubAttributes, getSubAttributes, List.filter, bne, List.lookup,
      SubscriptionDeliveryPolicy, SubscriptionFilterPolicy, SubscriptionRawMessageDelivery,
      SubscriptionRedrivePolicy, h1, h2, h3, h4]
  case _ =>
    intro kv hkv
    have hmem : kv ∈ getSubAttributes p := List.mem_of_mem_filter hkv
    simp only [getSubAttributes, List.mem_cons, List.not_mem_nil, or_false] at hmem
    rcases hmem with h | h | h | h <;> subst h <;> simp

/-- C3 witness: evaluated on a concrete parameter set and attribute map. -/
theorem changed_attrs_exact_witness :
    (List.lookup SubscriptionDeliveryPolicy
        (GetChangedSubAttributes ⟨"a", "sqs", "e", some "x", none, none, none⟩ []) =
      (if StringValue (some "x") == mapGet [] SubscriptionDeliveryPolicy then none
       else some (StringValue (some "x")))) ∧
    (List.lookup SubscriptionFilterPolicy
        (GetChangedSubAttributes ⟨"a", "sqs", "e", some "x", none, none, none⟩ []) =
      (if StringValue (none : Option String) == mapGet [] SubscriptionFilterPolicy then none
       else some (StringValue (none : Option String)))) ∧
    (List.lookup SubscriptionRawMessageDelivery
        (GetChangedSubAttributes ⟨"a", "sqs", "e", some "x", none, none, none⟩ []) =
      (if StringValue (none : Option String) == mapGet [] SubscriptionRawMessageDelivery then none
       else some (StringValue (none : Option String)))) ∧
    (List.lookup SubscriptionRedrivePolicy
        (GetChangedSubAttributes ⟨"a", "sqs", "e", some "x", none, none, none⟩ []) =
      (if StringValue (none : Option String) == mapGet [] SubscriptionRedrivePolicy then none
       else some (StringValue (none : Option String)))) ∧
    (∀ kv ∈ GetChangedSubAttributes ⟨"a", "sqs", "e", some "x", none, none, none⟩ [],
      kv.1 = SubscriptionDeliveryPolicy ∨ kv.1 = SubscriptionFilterPolicy ∨
      kv.1 = SubscriptionRawMessageDelivery ∨ kv.1 = SubscriptionRedrivePolicy) :=
  changed_attrs_exact ⟨"a", "sqs", "e", some "x", none, none, none⟩ []

/-- C6: `LateInitializeSubscription` only fills unset fields: every
policy field that was non-nil keeps its value, and the non-policy fields
are untouched. -/
theorem lateInit_preserves_set_fields (p : SNSSubscriptionParameters) (attrs : AttrMap) :
    ((LateInitializeSubscription p attrs).TopicARN = p.TopicARN ∧
     (LateInitializeSubscription p attrs).Protocol = p.Protocol ∧
     (LateInitializeSubscription p attrs).Endpoint = p.Endpoint) ∧
    (∀ v, p.DeliveryPolicy = some v → (LateInitializeSubscription p attrs).DeliveryPolicy = some v) ∧
    (∀ v, p.FilterPolicy = some v → (LateInitializeSubscription p attrs).FilterPolicy = some v) ∧
    (∀ v, p.RawMessageDelivery = some v →
      (LateInitializeSubscription p attrs).RawMessageDelivery = some v) ∧
    (∀ v, p.RedrivePolicy = some v → (LateInitializeSubscription p attrs).RedrivePolicy = some v) := by
  refine ⟨⟨rfl, rfl, rfl⟩, ?_, ?_, ?_, ?_⟩ <;>
    intro v hv <;> simp [LateInitializeSubscription, LateInitializeStringPtr, hv]

/-- C6 witness: evaluated on a concrete parameter set and attribute map. -/
theorem lateInit_preserves_set_fields_witness :
    ((LateInitializeSubscription ⟨"a", "sqs", "e", some "dp", none, none, none⟩
        [("FilterPolicy", "fp")]).TopicARN = "a" ∧
     (LateInitializeSubscription ⟨"a", "sqs", "e", some "dp", none, none, none⟩
        [("FilterPolicy", "fp")]).Protocol = "sqs" ∧
     (LateInitializeSubscription ⟨"a", "sqs", "e", some "dp", none, none, none⟩
        [("FilterPolicy", "fp")]).Endpoint = "e") ∧
    (∀ v, some "dp" = some v →
      (LateInitializeSubscription ⟨"a", "sqs", "e", some "dp", none, none, none⟩
        [("FilterPolicy", "fp")]).DeliveryPolicy = some v) ∧
    (∀ v, (none : Option String) = some v →
      (LateInitializeSubscription ⟨"a", "sqs", "e", some "dp", none, none, none⟩
        [("FilterPolicy", "fp")]).FilterPolicy = some v) ∧
    (∀ v, (none : Option String) = some v →
      (LateInitializeSubscription ⟨"a", "sqs", "e", some "dp", none, none, none⟩
        [("FilterPolicy", "fp")]).RawMessageDelivery = some v) ∧
    (∀ v, (none : Option String) = some v →
      (LateInitializeSubscription ⟨"a", "sqs", "e", some "dp", none, none, none⟩
        [("FilterPolicy", "fp")]).RedrivePolicy = some v) :=
  lateInit_preserves_set_fields ⟨"a", "sqs", "e", some "dp", none, none, none⟩
    [("FilterPolicy", "fp")]

/-- C9: `GenerateSubscriptionObservation` always returns non-nil `Status`
and `Owner` pointers: `Status` holds the zero-value confirmation status
when `PendingConfirmation` does not parse as a boolean, `Owner` holds the
(possibly empty) Owner attribute, and `ConfirmationWasAuthenticated` is
exactly the parse result of its attribute. -/
theorem generateObservation_defaults (attr : AttrMap) :
    (GenerateSubscriptionObservation attr).Status.isSome = true ∧
    (GenerateSubscriptionObservation attr).Owner = some (mapGet attr SubscriptionOwner) ∧
    (parseBool (mapGet attr SubscriptionPendingConfirmation) = none →
      (GenerateSubscriptionObservation attr).Status = some "") ∧
    (GenerateSubscriptionObservation attr).ConfirmationWasAuthenticated =
      parseBool (mapGet attr SubscriptionConfirmationWasAuthenticated) := by
  refine ⟨?_, ?_, ?_, ?_⟩
  case _ => simp [GenerateSubscriptionObservation]
  case _ => simp [GenerateSubscriptionObservation, awsString]
  case _ => intro h; simp [GenerateSubscriptionObservation, h]
  case _ => simp [GenerateSubscriptionObservation]

/-- C9 witness: evaluated on a concrete attribute map with an
unparseable confirmation status. -/
theorem generateObservation_defaults_witness :
    (GenerateSubscriptionObservation [("Owner", "12345")]).Status.isSome = true ∧
    (GenerateSubscriptionObservation [("Owner", "12345")]).Owner =
      some (mapGet [("Owner", "12345")] SubscriptionOwner) ∧
    (parseBool (mapGet [("Owner", "12345")] SubscriptionPendingConfirmation) = none →
      (GenerateSubscriptionObservation [("Owner", "12345")]).Status = some "") ∧
    (GenerateSubscriptionObservation [("Owner", "12345")]).ConfirmationWasAuthenticated =
      parseBool (mapGet [("Owner", "12345")] SubscriptionConfirmationWasAuthenticated) :=
  generateObservation_defaults [("Owner", "12345")]

end SNS

/-- C2: the SNS and APIMapping not-found checks recognize exactly an
`awserr.Error` with the respective code; nil errors, plain errors,
wrapped errors and other codes all yield false. -/
theorem notFound_error_codes (e : Option GoError) :
    (SNS.IsSubscriptionNotFound e = true ↔
      ∃ m, e = some (GoError.awsErr SNS.ErrCodeNotFoundException m)) ∧
    (APIMapping.IsNotFound e = true ↔
      ∃ m, e = some (GoError.awsErr "NotFoundException" m)) := by
  constructor
  case _ =>
    cases e with
    | none => simp [SNS.IsSubscriptionNotFound]
    | some g =>
      cases g <;>
        simp [SNS.IsSubscriptionNotFound]
  case _ =>
    cases e with
    | none => simp [APIMapping.IsNotFound]
    | some g =>
      cases g <;>
        simp [APIMapping.IsNotFound]

/-- C2 witness: evaluated on a concrete awserr error value. -/
theorem notFound_error_codes_witness :
    (SNS.IsSubscriptionNotFound (some (GoError.awsErr "NotFound" "gone")) = true ↔
      ∃ m, some (GoError.awsErr "NotFound" "gone") =
        some (GoError.awsErr SNS.ErrCodeNotFoundException m)) ∧
    (APIMapping.IsNotFound (some (GoError.awsErr "NotFound" "gone")) = true ↔
      ∃ m, some (GoError.awsErr "NotFound" "gone") =
        some (GoError.awsErr "NotFoundException" m)) :=
  notFound_error_codes (some (GoError.awsErr "NotFound" "gone"))

theorem mem_setCondition_self (cs : List Condition) (c : Condition) :
    c ∈ setCondition cs c := by
  cases h : cs.any (fun x => x.ctype == c.ctype) with
  | false => simp [setCondition, h]
  | true =>
    simp only [setCondition, h, if_true]
    obtain ⟨x, hx, hxc⟩ := List.any_eq_true.mp h
    exact List.mem_map.mpr ⟨x, hx, by simp [hxc]⟩

theorem foldl_append_filter {α : Type} (p : α → Bool) (l acc : List α) :
    List.foldl (fun acc a => if p a then acc ++ [a] else acc) acc l = acc ++ l.filter p := by
  induction l generalizing acc with
  | nil => simp
  | cons a t ih => cases h : p a <;> simp [List.filter_cons, h, ih]

namespace Authorizer

/-- C7: `postObserve` on a non-nil error returns the empty observation
with that error and leaves the resource untouched; on a nil error it
sets the Available condition and passes the observation through
unchanged. -/
theorem postObserve_spec (cr : AuthorizerCR) (obs : ExternalObservation) :
    (∀ e, postObserve cr obs (some e) = (cr, emptyObservation, some e)) ∧
    ((postObserve cr obs none).2.1 = obs ∧
     (postObserve cr obs none).2.2 = none ∧
     conditionAvailable ∈ (postObserve cr obs none).1.conditions ∧
     (postObserve cr obs none).1.externalName = cr.externalName ∧
     (postObserve cr obs none).1.specAPIID = cr.specAPIID ∧
     (postObserve cr obs none).1.statusAuthorizerID = cr.statusAuthorizerID) := by
  refine ⟨fun e => rfl, rfl, rfl, ?_, rfl, rfl, rfl⟩
  show conditionAvailable ∈ setCondition cr.conditions conditionAvailable
  exact mem_setCondition_self cr.conditions conditionAvailable

/-- C7 witness: evaluated on a concrete resource and observation. -/
theorem postObserve_spec_witness :
    (∀ e, postObserve ⟨"auth", some "api", none, []⟩ ⟨true, true⟩ (some e) =
      (⟨"auth", some "api", none, []⟩, emptyObservation, some e)) ∧
    ((postObserve ⟨"auth", some "api", none, []⟩ ⟨true, true⟩ none).2.1 = ⟨true, true⟩ ∧
     (postObserve ⟨"auth", some "api", none, []⟩ ⟨true, true⟩ none).2.2 = none ∧
     conditionAvailable ∈ (postObserve ⟨"auth", some "api", none, []⟩ ⟨true, true⟩ none).1.conditions ∧
     (postObserve ⟨"auth", some "api", none, []⟩ ⟨true, true⟩ none).1.externalName = "auth" ∧
     (postObserve ⟨"auth", some "api", none, []⟩ ⟨true, true⟩ none).1.specAPIID = some "api" ∧
     (postObserve ⟨"auth", some "api", none, []⟩ ⟨true, true⟩ none).1.statusAuthorizerID = none) :=
  postObserve_spec ⟨"auth", some "api", none, []⟩ ⟨true, true⟩

/-- C8: `filterList` returns exactly the listed authorizers whose name
(nil read as `""`) equals the resource's external name, in their
original relative order (a sublist of the input). -/
theorem filterList_spec (cr : AuthorizerCR) (list : GetAuthorizersOutput) :
    (filterList cr list).Items =
      list.Items.filter (fun a => cr.externalName == StringValue a.Name) ∧
    List.Sublist (filterList cr list).Items list.Items ∧
    (∀ a, a ∈ (filterList cr list).Items ↔
      a ∈ list.Items ∧ StringValue a.Name = cr.externalName) := by
  have hf : (filterList cr list).Items =
      list.Items.filter (fun a => cr.externalName == StringValue a.Name) := by
    have h0 := foldl_append_filter (fun a => cr.externalName == StringValue a.Name) list.Items []
    simpa [filterList] using h0
  refine ⟨hf, ?_, ?_⟩
  case _ => rw [hf]; exact List.filter_sublist list.Items
  case _ =>
    intro a
    rw [hf, List.mem_filter]
    constructor
    case _ => rintro ⟨h, hb⟩; exact ⟨h, (eq_of_beq hb).symm⟩
    case _ => rintro ⟨h, hb⟩; exact ⟨h, beq_iff_eq.mpr hb.symm⟩

/-- C8 witness: evaluated on a concrete resource and listing. -/
theorem filterList_spec_witness :
    (filterList ⟨"n1", none, none, []⟩ ⟨[⟨some "n1", some "id1"⟩, ⟨some "n2", none⟩], none⟩).Items =
      List.filter (fun a => "n1" == StringValue a.Name)
        [⟨some "n1", some "id1"⟩, ⟨some "n2", none⟩] ∧
    List.Sublist
      (filterList ⟨"n1", none, none, []⟩ ⟨[⟨some "n1", some "id1"⟩, ⟨some "n2", none⟩], none⟩).Items
      [⟨some "n1", some "id1"⟩, ⟨some "n2", none⟩] ∧
    (∀ a, a ∈ (filterList ⟨"n1", none, none, []⟩
        ⟨[⟨some "n1", some "id1"⟩, ⟨some "n2", none⟩], none⟩).Items ↔
      a ∈ [⟨some "n1", some "id1"⟩, ⟨some "n2", none⟩] ∧ StringValue a.Name = "n1") :=
  filterList_spec ⟨"n1", none, none, []⟩ ⟨[⟨some "n1", some "id1"⟩, ⟨some "n2", none⟩], none⟩

end Authorizer

namespace NodeGroup

/-- C4: a DeleteNodegroup failure carrying the EKS resource-not-found
code yields a nil error from `Delete` with the Deleting condition still
set, and a DescribeNodegroup failure with that code makes `Observe`
return a does-not-exist observation with no error, the resource
untouched. -/
theorem notFound_treated_as_absent (cr : NodeGroupCR) (e : GoError)
    (h : isResourceNotFound e = true) :
    (Delete cr (some e)).2 = none ∧
    conditionDeleting ∈ (Delete cr (some e)).1.conditions ∧
    Observe cr (Except.error e) = (cr, emptyObservation, none) := by
  refine ⟨?_, ?_, ?_⟩
  case _ =>
    cases hs : (cr.statusAtProvider == NodeGroupStatusDeleting) <;> simp [Delete, h, hs]
  case _ =>
    have hc : (Delete cr (some e)).1.conditions =
        setCondition cr.conditions conditionDeleting := by
      cases hs : (cr.statusAtProvider == NodeGroupStatusDeleting) <;> simp [Delete, h, hs]
    rw [hc]
    exact mem_setCondition_self cr.conditions conditionDeleting
  case _ => simp [Observe, h]

/-- C4 witness: evaluated on a concrete resource and a resource-not-found
error. -/
theorem notFound_treated_as_absent_witness :
    (Delete ⟨none, [], "ACTIVE", []⟩ (some (GoError.basic "ResourceNotFoundException"))).2 = none ∧
    conditionDeleting ∈
      (Delete ⟨none, [], "ACTIVE", []⟩ (some (GoError.basic "ResourceNotFoundException"))).1.conditions ∧
    Observe ⟨none, [], "ACTIVE", []⟩ (Except.error (GoError.basic "ResourceNotFoundException")) =
      (⟨none, [], "ACTIVE", []⟩, emptyObservation, none) :=
  notFound_treated_as_absent ⟨none, [], "ACTIVE", []⟩
    (GoError.basic "ResourceNotFoundException") (by decide)

/-- C5: when the first AWS call fails with an error that is not the
recognized not-found code, each operation returns that error wrapped
with its static error string, and the resource's spec and observed
status are unchanged apart from the condition the operation sets
(`Observe` sets none on this path). -/
theorem first_failure_wrapped (cr : NodeGroupCR) (e : GoError)
    (hnf : isResourceNotFound e = false)
    (hnd : cr.statusAtProvider ≠ NodeGroupStatusDeleting)
    (hnc : cr.statusAtProvider ≠ NodeGroupStatusCreating) :
    Observe cr (Except.error e) =
      (cr, emptyObservation, some (GoError.wrap errDescribeFailed e)) ∧
    ((Delete cr (some e)).2 = some (GoError.wrap errDeleteFailed e) ∧
     (Delete cr (some e)).1.specVersion = cr.specVersion ∧
     (Delete cr (some e)).1.specTags = cr.specTags ∧
     (Delete cr (some e)).1.statusAtProvider = cr.statusAtProvider) ∧
    ((Create cr (some e)).2 = some (GoError.wrap errCreateFailed e) ∧
     (Create cr (some e)).1.specVersion = cr.specVersion ∧
     (Create cr (some e)).1.specTags = cr.specTags ∧
     (Create cr (some e)).1.statusAtProvider = cr.statusAtProvider) := by
  have hd : (cr.statusAtProvider == NodeGroupStatusDeleting) = false :=
    beq_eq_false_iff_ne.mpr hnd
  have hc : (cr.statusAtProvider == NodeGroupStatusCreating) = false :=
    beq_eq_false_iff_ne.mpr hnc
  refine ⟨?_, ⟨?_, ?_, ?_, ?_⟩, ?_, ?_, ?_, ?_⟩ <;>
    simp [Observe, Delete, Create, hnf, hd, hc]

/-- C5 witness: evaluated on a concrete active resource and an
unrecognized error. -/
theorem first_failure_wrapped_witness :
    Observe ⟨none, [], "ACTIVE", []⟩ (Except.error (GoError.basic "boom")) =
      (⟨none, [], "ACTIVE", []⟩, emptyObservation,
       some (GoError.wrap errDescribeFailed (GoError.basic "boom"))) ∧
    ((Delete ⟨none, [], "ACTIVE", []⟩ (some (GoError.basic "boom"))).2 =
       some (GoError.wrap errDeleteFailed (GoError.basic "boom")) ∧
     (Delete ⟨none, [], "ACTIVE", []⟩ (some (GoError.basic "boom"))).1.specVersion = none ∧
     (Delete ⟨none, [], "ACTIVE", []⟩ (some (GoError.basic "boom"))).1.specTags = [] ∧
     (Delete ⟨none, [], "ACTIVE", []⟩ (some (GoError.basic "boom"))).1.statusAtProvider = "ACTIVE") ∧
    ((Create ⟨none, [], "ACTIVE", []⟩ (some (GoError.basic "boom"))).2 =
       some (GoError.wrap errCreateFailed (GoError.basic "boom")) ∧
     (Create ⟨none, [], "ACTIVE", []⟩ (some (GoError.basic "boom"))).1.specVersion = none ∧
     (Create ⟨none, [], "ACTIVE", []⟩ (some (GoError.basic "boom"))).1.specTags = [] ∧
     (Create ⟨none, [], "ACTIVE", []⟩ (some (GoError.basic "boom"))).1.statusAtProvider = "ACTIVE") :=
  first_failure_wrapped ⟨none, [], "ACTIVE", []⟩ (GoError.basic "boom")
    (by decide) (by decide) (by decide)

end NodeGroup

namespace APIMapping

/-- C10: `GenerateAPIMapping` depends only on the first listed item: it
equals the result on the one-item truncation, the empty listing yields
the all-empty resource, and a first item `e` yields exactly `e`'s
fields (nil fields left unset). -/
theorem generateAPIMapping_first_item (resp : GetApiMappingsOutput) :
    GenerateAPIMapping resp = GenerateAPIMapping ⟨resp.Items.take 1⟩ ∧
    (resp.Items = [] → GenerateAPIMapping resp = emptyAPIMapping) ∧
    (∀ e rest, resp.Items = e :: rest →
      GenerateAPIMapping resp = ⟨e.ApiId, e.ApiMappingId, e.Stage, e.ApiMappingKey⟩) := by
  obtain ⟨items⟩ := resp
  cases items with
  | nil => exact ⟨rfl, fun _ => rfl, fun e rest h => nomatch h⟩
  | cons e rest =>
    refine ⟨rfl, ?_, ?_⟩
    case _ => intro h; simp at h
    case _ =>
      intro e2 rest2 h
      injection h with h1 h2
      subst h1
      obtain ⟨a, b, k, s⟩ := e
      cases a <;> cases b <;> cases k <;> cases s <;>
        simp [GenerateAPIMapping, emptyAPIMapping]

/-- C10 witness: evaluated on a concrete two-item response. -/
theorem generateAPIMapping_first_item_witness :
    GenerateAPIMapping ⟨[(⟨some "api", none, some "key", none⟩ : ApiMappingItem),
        ⟨some "x", some "y", none, none⟩]⟩ =
      GenerateAPIMapping ⟨List.take 1 [(⟨some "api", none, some "key", none⟩ : ApiMappingItem),
        ⟨some "x", some "y", none, none⟩]⟩ ∧
    ([(⟨some "api", none, some "key", none⟩ : ApiMappingItem),
        ⟨some "x", some "y", none, none⟩] = ([] : List ApiMappingItem) →
      GenerateAPIMapping ⟨[(⟨some "api", none, some "key", none⟩ : ApiMappingItem),
        ⟨some "x", some "y", none, none⟩]⟩ = emptyAPIMapping) ∧
    (∀ (e : ApiMappingItem) (rest : List ApiMappingItem),
      [(⟨some "api", none, some "key", none⟩ : ApiMappingItem),
        ⟨some "x", some "y", none, none⟩] = e :: rest →
      GenerateAPIMapping ⟨[(⟨some "api", none, some "key", none⟩ : ApiMappingItem),
        ⟨some "x", some "y", none, none⟩]⟩ =
        ⟨e.ApiId, e.ApiMappingId, e.Stage, e.ApiMappingKey⟩) :=
  generateAPIMapping_first_item ⟨[(⟨some "api", none, some "key", none⟩ : ApiMappingItem),
    ⟨some "x", some "y", none, none⟩]⟩

end APIMapping

end ProviderAWS
